import Mathlib

/-!
Shallow embedding of `fairseq2/nn/transformer/decoder_layer.py`
(`StandardTransformerDecoderLayer`) and of the NLLB checkpoint key-map in
`fairseq2/models/nllb/loader.py`.

Tensors, attention modules, feed-forward networks and layer-norm modules are
kept abstract: the layer only composes them, so the embedding is parameterized
by an arbitrary tensor type `T`, a state-bag type `S` and an RNG type `R`.
In-place mutation of the incremental state bag is modelled by explicit state
threading: every attention call receives the bag and returns the new bag, and
the bag value survives an error return exactly as a Python object mutated in
place survives a raised exception.  Dropout is modelled as an abstract
RNG-consuming function; `F.dropout` is only invoked on the `dropout_p > 0`
branch, exactly as in the source.
-/

namespace Fairseq2

/-- The `TransformerNormOrder` enumeration (`fairseq2/nn/transformer/norm_order.py`,
imported by the decoder layer): POST, PRE, PRE_WITH_NORMFORMER. -/
inductive TransformerNormOrder
| POST
| PRE
| PRE_WITH_NORMFORMER
deriving DecidableEq

/-- External collaborator: a multi-head attention module.  `attend` takes
query, keys, values, an optional attention mask, an optional padding mask and
the state bag, and returns the output tensor together with the (possibly
mutated) state bag. -/
structure MultiheadAttention (T S : Type) where
  model_dim : Nat
  attend : T → T → T → Option T → Option T → S → T × S

/-- External collaborator: a feed-forward network module. -/
structure FeedForwardNetwork (T : Type) where
  model_dim : Nat
  transform : T → T

/-- External tensor operations used by the layer: elementwise addition
(residual add), broadcast elementwise multiplication (`torch.mul`), and
`F.dropout x p training rng`. -/
structure TensorOps (T R : Type) where
  add : T → T → T
  mul : T → T → T
  dropout : T → Rat → Bool → R → T × R

/-- Applies an optional module (`if m is not None: x = m(x)`). -/
def applyOpt {T : Type} (m : Option (T → T)) (x : T) : T :=
  match m with
  | some n => n x
  | none => x

/-- The fields of `StandardTransformerDecoderLayer`.  Layer-norm modules are
abstract functions `T → T`; `residual_scale` is an optional vector of type `T`
(`torch.mul` broadcasts it over the residual); `training` is the module's
train/eval flag consulted by `F.dropout`. -/
structure StandardTransformerDecoderLayer (T S : Type) where
  model_dim : Nat
  self_attn : MultiheadAttention T S
  self_attn_norm : Option (T → T)
  self_attn_layer_norm : T → T
  enc_dec_attn : Option (MultiheadAttention T S)
  enc_dec_attn_layer_norm : Option (T → T)
  ffn : FeedForwardNetwork T
  residual_scale : Option T
  ffn_layer_norm : T → T
  dropout_p : Rat
  norm_order : TransformerNormOrder
  training : Bool

/-- `StandardTransformerDecoderLayer.__init__` (decoder_layer.py:108-211).
`mkLayerNorm dim eps` stands for `LayerNorm(dim, eps)`; `ones dim` stands for
the all-ones parameter vector produced by `reset_parameters` for
`residual_scale`.  Returns a configuration error exactly where the source
raises `ValueError`: when `enc_dec_attn` (if present) or `ffn` declares a
`model_dim` different from `self_attn.model_dim`. -/
def mkStandardTransformerDecoderLayer {T S : Type}
    (mkLayerNorm : Nat → Rat → (T → T)) (ones : Nat → T)
    (self_attn : MultiheadAttention T S)
    (enc_dec_attn : Option (MultiheadAttention T S))
    (ffn : FeedForwardNetwork T)
    (scale_residual : Bool) (dropout_p : Rat)
    (norm_order : TransformerNormOrder) (norm_eps : Rat) (training : Bool) :
    Except String (StandardTransformerDecoderLayer T S) :=
  let model_dim := self_attn.model_dim
  match enc_dec_attn with
  | some a =>
    if a.model_dim ≠ model_dim then
      Except.error "`model_dim` of `enc_dec_attn` does not match `model_dim` of `self_attn`."
    else if ffn.model_dim ≠ model_dim then
      Except.error "`model_dim` of `ffn` does not match `model_dim` of `self_attn`."
    else
      Except.ok
        { model_dim := model_dim
          self_attn := self_attn
          self_attn_norm :=
            if norm_order = TransformerNormOrder.PRE_WITH_NORMFORMER then
              some (mkLayerNorm model_dim norm_eps)
            else none
          self_attn_layer_norm := mkLayerNorm model_dim norm_eps
          enc_dec_attn := some a
          enc_dec_attn_layer_norm := some (mkLayerNorm model_dim norm_eps)
          ffn := ffn
          residual_scale := if scale_residual then some (ones model_dim) else none
          ffn_layer_norm := mkLayerNorm model_dim norm_eps
          dropout_p := dropout_p
          norm_order := norm_order
          training := training }
  | none =>
    if ffn.model_dim ≠ model_dim then
      Except.error "`model_dim` of `ffn` does not match `model_dim` of `self_attn`."
    else
      Except.ok
        { model_dim := model_dim
          self_attn := self_attn
          self_attn_norm :=
            if norm_order = TransformerNormOrder.PRE_WITH_NORMFORMER then
              some (mkLayerNorm model_dim norm_eps)
            else none
          self_attn_layer_norm := mkLayerNorm model_dim norm_eps
          enc_dec_attn := none
          enc_dec_attn_layer_norm := none
          ffn := ffn
          residual_scale := if scale_residual then some (ones model_dim) else none
          ffn_layer_norm := mkLayerNorm model_dim norm_eps
          dropout_p := dropout_p
          norm_order := norm_order
          training := training }

namespace StandardTransformerDecoderLayer

variable {T S R : Type}

/-- The guarded dropout step shared by the three sub-blocks
(`if self.dropout_p > 0.0: x = F.dropout(x, self.dropout_p, self.training)`). -/
def dropoutStep (ops : TensorOps T R) (L : StandardTransformerDecoderLayer T S)
    (x : T) (rng : R) : T × R :=
  if 0 < L.dropout_p then ops.dropout x L.dropout_p L.training rng else (x, rng)

/-- `_forward_self_attn` (decoder_layer.py:236-268). -/
def forward_self_attn (ops : TensorOps T R) (L : StandardTransformerDecoderLayer T S)
    (x : T) (padding_mask self_attn_mask : Option T) (sb : S) (rng : R) :
    T × S × R :=
  let residual := x
  let x1 := if L.norm_order ≠ TransformerNormOrder.POST then L.self_attn_layer_norm x else x
  let a := L.self_attn.attend x1 x1 x1 self_attn_mask padding_mask sb
  let x2 := applyOpt L.self_attn_norm a.1
  let d := dropoutStep ops L x2 rng
  let x3 := ops.add d.1 residual
  let x4 := if L.norm_order = TransformerNormOrder.POST then L.self_attn_layer_norm x3 else x3
  (x4, a.2, d.2)

/-- `_forward_enc_dec_attn` (decoder_layer.py:270-309).  The two `ValueError`s
become `Except.error`; the state bag and RNG are returned alongside so that a
bag mutated before the raise is observable, matching Python's in-place
mutation semantics.  The source's `cast(LayerNorm, ...)` (justified by the
constructor invariant that `enc_dec_attn_layer_norm` is present whenever
`enc_dec_attn` is) is rendered as `Option.getD id`. -/
def forward_enc_dec_attn (ops : TensorOps T R) (L : StandardTransformerDecoderLayer T S)
    (x : T) (enc_out enc_padding_mask : Option T) (sb : S) (rng : R) :
    Except String T × S × R :=
  match L.enc_dec_attn with
  | none =>
    match enc_out with
    | some _ => (Except.error "`enc_out` must be `None` for decoder-only attention.", sb, rng)
    | none => (Except.ok x, sb, rng)
  | some attn =>
    match enc_out with
    | none => (Except.error "`enc_out` must not be `None` for encoder-decoder attention.", sb, rng)
    | some enc =>
      let residual := x
      let x1 :=
        if L.norm_order ≠ TransformerNormOrder.POST then
          (L.enc_dec_attn_layer_norm.getD id) x
        else x
      let a := attn.attend x1 enc enc none enc_padding_mask sb
      let d := dropoutStep ops L a.1 rng
      let x3 := ops.add d.1 residual
      let x4 :=
        if L.norm_order = TransformerNormOrder.POST then
          (L.enc_dec_attn_layer_norm.getD id) x3
        else x3
      (Except.ok x4, a.2, d.2)

/-- `_forward_ffn` (decoder_layer.py:311-330). -/
def forward_ffn (ops : TensorOps T R) (L : StandardTransformerDecoderLayer T S)
    (x : T) (rng : R) : T × R :=
  let residual := x
  let x1 := if L.norm_order ≠ TransformerNormOrder.POST then L.ffn_layer_norm x else x
  let x2 := L.ffn.transform x1
  let d := dropoutStep ops L x2 rng
  let residual2 :=
    match L.residual_scale with
    | some s => ops.mul s residual
    | none => residual
  let x3 := ops.add d.1 residual2
  let x4 := if L.norm_order = TransformerNormOrder.POST then L.ffn_layer_norm x3 else x3
  (x4, d.2)

/-- `StandardTransformerDecoderLayer.forward` (decoder_layer.py:218-234):
self-attention, then encoder-decoder attention, then feed-forward.  An error
raised by the cross-attention dispatch propagates, carrying along the state
bag as already mutated by the self-attention sub-block. -/
def forward (ops : TensorOps T R) (L : StandardTransformerDecoderLayer T S)
    (x : T) (padding_mask self_attn_mask enc_out enc_padding_mask : Option T)
    (sb : S) (rng : R) : Except String T × S × R :=
  let r1 := L.forward_self_attn ops x padding_mask self_attn_mask sb rng
  match L.forward_enc_dec_attn ops r1.1 enc_out enc_padding_mask r1.2.1 r1.2.2 with
  | (Except.error e, sb2, rng2) => (Except.error e, sb2, rng2)
  | (Except.ok x2, sb2, rng2) =>
    let r3 := L.forward_ffn ops x2 rng2
    (Except.ok r3.1, sb2, r3.2)

end StandardTransformerDecoderLayer

/-! ### NLLB checkpoint key map (`fairseq2/models/nllb/loader.py`) -/

/-- A token of the restricted regular-expression syntax used by the NLLB
key-map patterns: a literal character (possibly backslash-escaped in the
pattern text) or the capturing group `([0-9]+)`. -/
inductive PatTok
| lit (c : Char)
| group
deriving DecidableEq

/-- Tokenizes the body of a pattern (everything after the `^` anchor). -/
def tokenize : List Char → List PatTok
  | '\\' :: c :: rest => PatTok.lit c :: tokenize rest
  | '(' :: '[' :: '0' :: '-' :: '9' :: ']' :: '+' :: ')' :: rest =>
    PatTok.group :: tokenize rest
  | c :: rest => PatTok.lit c :: tokenize rest
  | [] => []

/-- Matches a tokenized pattern against the start of a key.  Returns the
digits captured by the group (empty when the pattern has no group) and the
key characters left over after the match.  `([0-9]+)` matches greedily; in
every pattern of the table the group is followed by a non-digit literal, so
greedy matching coincides with the regex semantics. -/
def matchToks : List PatTok → List Char → Option (List Char × List Char)
  | [], ks => some ([], ks)
  | PatTok.lit _ :: _, [] => none
  | PatTok.lit c :: ps, k :: ks => if k = c then matchToks ps ks else none
  | PatTok.group :: ps, ks =>
    let ds := ks.takeWhile Char.isDigit
    if ds.isEmpty then none
    else
      match matchToks ps (ks.dropWhile Char.isDigit) with
      | some (_, rest) => some (ds, rest)
      | none => none

/-- Substitutes the captured group for each `\1` in a replacement text. -/
def substGroup : List Char → List Char → List Char
  | '\\' :: '1' :: rs, g => g ++ substGroup rs g
  | r :: rs, g => r :: substGroup rs g
  | [], _ => []

/-- Applies one `(pattern, replacement)` entry to a key, in the manner of
`re.sub` with a `^`-anchored pattern: on a match, the matched span is
replaced (with `\1` resolved to the captured digits) and the unmatched tail
of the key is kept; on no match, `none`. -/
def applyEntry (pat rep key : String) : Option String :=
  match pat.data with
  | '^' :: ps =>
    match matchToks (tokenize ps) key.data with
    | some (g, rest) => some (List.asString (substGroup rep.data g ++ rest))
    | none => none
  | _ => none

/-- `NllbLoader._fairseq_key_map` (loader.py:53-73), transliterated entry by
entry in declaration order, duplicates included: the Python source is a dict
literal, and the entry for `decoder.layers.N.encoder_attn.out_proj.` appears
twice (lines 59 and 60) with the same right-hand side. -/
def fairseq_key_map : List (String × String) :=
  [ ("^decoder\\.layers\\.([0-9]+)\\.self_attn\\.out_proj\\.", "decoder.layers.\\1.self_attn.output_proj."),
    ("^encoder\\.layers\\.([0-9]+)\\.self_attn\\.out_proj\\.", "encoder.layers.\\1.self_attn.output_proj."),
    ("^decoder\\.layers\\.([0-9]+)\\.encoder_attn\\.out_proj\\.", "decoder.layers.\\1.encoder_decoder_attn.output_proj."),
    ("^decoder\\.layers\\.([0-9]+)\\.encoder_attn\\.out_proj\\.", "decoder.layers.\\1.encoder_decoder_attn.output_proj."),
    ("^decoder\\.layers\\.([0-9]+)\\.encoder_attn\\.", "decoder.layers.\\1.encoder_decoder_attn."),
    ("^decoder\\.layers\\.([0-9]+)\\.encoder_attn_layer_norm\\.", "decoder.layers.\\1.encoder_decoder_attn_layer_norm."),
    ("^encoder\\.layers\\.([0-9]+)\\.fc1\\.", "encoder.layers.\\1.ffn.inner_proj."),
    ("^decoder\\.layers\\.([0-9]+)\\.fc1\\.", "decoder.layers.\\1.ffn.inner_proj."),
    ("^encoder\\.layers\\.([0-9]+)\\.fc2\\.", "encoder.layers.\\1.ffn.output_proj."),
    ("^decoder\\.layers\\.([0-9]+)\\.fc2\\.", "decoder.layers.\\1.ffn.output_proj."),
    ("^encoder\\.layers\\.([0-9]+)\\.final_layer_norm\\.", "encoder.layers.\\1.ffn_layer_norm."),
    ("^decoder\\.layers\\.([0-9]+)\\.final_layer_norm\\.", "decoder.layers.\\1.ffn_layer_norm."),
    ("^encoder\\.embed_tokens\\.", "encoder_frontend.embed."),
    ("^decoder\\.embed_tokens\\.", "decoder_frontend.embed."),
    ("^decoder\\.output_projection\\.", "final_proj.") ]

/-- Modelled from the spec: `upgrade_fairseq_checkpoint`
(`fairseq2/models/utils/checkpoint.py`, not in the given sources) renames
every checkpoint key through the declared map; per the spec it is "an ordered
list of (pattern, replacement) pairs applied in sequence ... preserve
declaration order exactly", so a key is renamed by the first entry whose
pattern matches it. -/
def applyKeyMap (key : String) : Option String :=
  (fairseq_key_map.filterMap (fun e => applyEntry e.1 e.2 key)).head?

/-- The control-token fix-up `embeds[[0, 1, 2, 3]] = embeds[[1, 3, 0, 2]]`
(loader.py:47-49) on the rows of the embedding matrix: advanced-indexing
assignment reads the right-hand side rows before writing, so new row 0 is old
row 1, new row 1 is old row 3, new row 2 is old row 0, new row 3 is old
row 2, and every other row is unchanged. -/
def fixControlTokens {α : Type} (rows : Nat → α) : Nat → α := fun i =>
  if i = 0 then rows 1
  else if i = 1 then rows 3
  else if i = 2 then rows 0
  else if i = 3 then rows 2
  else rows i

/-! ### Concrete instantiations used to witness the theorems -/

/-- Concrete tensor operations over `Nat` tensors with a `Nat` RNG. -/
def natOps : TensorOps Nat Nat :=
  { add := fun a b => a + b
    mul := fun a b => a * b
    dropout := fun x _ _ r => (x + r, r + 1) }

/-- Concrete attention module: adds one to the query and advances the bag. -/
def natAttn : MultiheadAttention Nat Nat :=
  { model_dim := 4, attend := fun q _ _ _ _ sb => (q + 1, sb + 1) }

/-- Concrete feed-forward network of matching dimension. -/
def natFfn : FeedForwardNetwork Nat :=
  { model_dim := 4, transform := fun x => 2 * x }

/-- Concrete feed-forward network of a mismatched dimension. -/
def natFfn8 : FeedForwardNetwork Nat :=
  { model_dim := 8, transform := fun x => x }

/-- Concrete layer-norm factory. -/
def natLN : Nat → Rat → (Nat → Nat) := fun _ _ x => x + 10

/-- Concrete all-ones vector factory. -/
def natOnes : Nat → Nat := fun _ => 1

/-- A concrete decoder-only POST layer with dropout 0. -/
def postLayer : StandardTransformerDecoderLayer Nat Nat :=
  { model_dim := 4
    self_attn := natAttn
    self_attn_norm := none
    self_attn_layer_norm := natLN 4 0
    enc_dec_attn := none
    enc_dec_attn_layer_norm := none
    ffn := natFfn
    residual_scale := none
    ffn_layer_norm := natLN 4 0
    dropout_p := 0
    norm_order := TransformerNormOrder.POST
    training := true }

/-- A concrete PRE variant of `postLayer`. -/
def preLayer : StandardTransformerDecoderLayer Nat Nat :=
  { postLayer with norm_order := TransformerNormOrder.PRE }

/-- A concrete PRE_WITH_NORMFORMER variant of `postLayer`. -/
def normformerLayer : StandardTransformerDecoderLayer Nat Nat :=
  { postLayer with
      norm_order := TransformerNormOrder.PRE_WITH_NORMFORMER
      self_attn_norm := some (natLN 4 0) }

/-- A concrete encoder-decoder variant of `postLayer`. -/
def encDecLayer : StandardTransformerDecoderLayer Nat Nat :=
  { postLayer with
      enc_dec_attn := some natAttn
      enc_dec_attn_layer_norm := some (natLN 4 0) }

/-- A concrete variant of `postLayer` with a residual scale. -/
def scaleLayer : StandardTransformerDecoderLayer Nat Nat :=
  { postLayer with residual_scale := some 1 }

/-- Concrete tensor operations over `List Int` tensors in which addition
keeps its left operand and multiplication its right operand, so every
operation is length-preserving. -/
def listOps : TensorOps (List Int) Nat :=
  { add := fun a _ => a, mul := fun _ a => a, dropout := fun x _ _ r => (x, r) }

/-- Concrete length-preserving attention module over `List Int`. -/
def listAttn : MultiheadAttention (List Int) Nat :=
  { model_dim := 3, attend := fun q _ _ _ _ sb => (q.map (· + 1), sb + 1) }

/-- Concrete length-preserving feed-forward network over `List Int`. -/
def listFfn : FeedForwardNetwork (List Int) :=
  { model_dim := 3, transform := fun x => x.map (· * 2) }

/-- A concrete decoder-only POST layer over `List Int` tensors. -/
def listLayer : StandardTransformerDecoderLayer (List Int) Nat :=
  { model_dim := 3
    self_attn := listAttn
    self_attn_norm := none
    self_attn_layer_norm := id
    enc_dec_attn := none
    enc_dec_attn_layer_norm := none
    ffn := listFfn
    residual_scale := none
    ffn_layer_norm := id
    dropout_p := 0
    norm_order := TransformerNormOrder.POST
    training := true }

/-! ### Helper lemmas -/

/-- Characterizes the fields of a successfully constructed layer in terms of
the constructor arguments. -/
theorem mk_ok_fields {T S : Type}
    {mkLN : Nat → Rat → (T → T)} {ones : Nat → T}
    {sa : MultiheadAttention T S} {eda : Option (MultiheadAttention T S)}
    {ffn : FeedForwardNetwork T} {sr : Bool} {dp : Rat}
    {no : TransformerNormOrder} {eps : Rat} {tr : Bool}
    {L : StandardTransformerDecoderLayer T S}
    (hL : mkStandardTransformerDecoderLayer mkLN ones sa eda ffn sr dp no eps tr = Except.ok L) :
    L.self_attn = sa
    ∧ L.self_attn_norm
        = (if no = TransformerNormOrder.PRE_WITH_NORMFORMER then some (mkLN sa.model_dim eps) else none)
    ∧ L.self_attn_layer_norm = mkLN sa.model_dim eps
    ∧ L.enc_dec_attn = eda
    ∧ L.ffn = ffn
    ∧ L.residual_scale = (if sr then some (ones sa.model_dim) else none)
    ∧ L.ffn_layer_norm = mkLN sa.model_dim eps
    ∧ L.dropout_p = dp
    ∧ L.norm_order = no
    ∧ L.model_dim = sa.model_dim := by
  cases eda with
  | none =>
    rw [mkStandardTransformerDecoderLayer] at hL
    split at hL
    · exact absurd hL (by simp)
    · obtain rfl : _ = L := by injection hL
      simp
  | some a =>
    rw [mkStandardTransformerDecoderLayer] at hL
    split at hL
    · exact absurd hL (by simp)
    · split at hL
      · exact absurd hL (by simp)
      · obtain rfl : _ = L := by injection hL
        simp

/-- The dropout step is skipped entirely when the dropout probability is 0. -/
theorem dropoutStep_of_zero {T S R : Type} (ops : TensorOps T R)
    {L : StandardTransformerDecoderLayer T S} (h : L.dropout_p = 0)
    (z : T) (rng : R) : L.dropoutStep ops z rng = (z, rng) := by
  rw [StandardTransformerDecoderLayer.dropoutStep]
  simp [h]

/-! ### Claim theorems -/

/-- C8: applying the declared regex rename map to the key
`encoder.layers.3.fc1.weight` yields `encoder.layers.3.ffn.inner_proj.weight`,
and the control-token fix-up maps the first four embedding rows
(BOS, PAD, EOS, UNK) to (PAD, UNK, BOS, EOS): new row 0 is old row 1, new
row 1 is old row 3, new row 2 is old row 0, new row 3 is old row 2. -/
theorem C8_key_map_and_control_tokens :
    applyKeyMap "encoder.layers.3.fc1.weight" = some "encoder.layers.3.ffn.inner_proj.weight"
    ∧ ∀ (α : Type) (rows : Nat → α),
        fixControlTokens rows 0 = rows 1
        ∧ fixControlTokens rows 1 = rows 3
        ∧ fixControlTokens rows 2 = rows 0
        ∧ fixControlTokens rows 3 = rows 2 :=
  ⟨by decide, fun _ _ => ⟨rfl, rfl, rfl, rfl⟩⟩

/-- C9 counterexample: the claim asserts that the two registrations of the
pattern `decoder.layers.N.encoder_attn.out_proj.` have different right-hand
sides and would send some matching key to different destinations.  In the
source they are the entries at positions 2 and 3 of the table and are
character-for-character identical, so both produce the same destination for
the sample key `decoder.layers.0.encoder_attn.out_proj.weight`. -/
theorem C9_duplicate_entries_identical :
    fairseq_key_map.get? 2 = fairseq_key_map.get? 3
    ∧ (fairseq_key_map.get? 2).map
        (fun e => applyEntry e.1 e.2 "decoder.layers.0.encoder_attn.out_proj.weight")
      = (fairseq_key_map.get? 3).map
        (fun e => applyEntry e.1 e.2 "decoder.layers.0.encoder_attn.out_proj.weight") := by
  exact ⟨rfl, rfl⟩

/-- C9 (amended): the key-map table registers the pattern for
`decoder.layers.N.encoder_attn.out_proj.` twice (entries 2 and 3, from lines
59 and 60 of the source dict literal), and the two registrations have
identical right-hand sides, so the later dict entry overrides the earlier one
with no behavioral difference: for every key, the two declared entries
produce the same destination name. -/
theorem C9_duplicate_registration :
    fairseq_key_map.get? 2
      = some ("^decoder\\.layers\\.([0-9]+)\\.encoder_attn\\.out_proj\\.",
              "decoder.layers.\\1.encoder_decoder_attn.output_proj.")
    ∧ fairseq_key_map.get? 3
      = some ("^decoder\\.layers\\.([0-9]+)\\.encoder_attn\\.out_proj\\.",
              "decoder.layers.\\1.encoder_decoder_attn.output_proj.")
    ∧ ∀ k : String,
        (fairseq_key_map.get? 2).map (fun e => applyEntry e.1 e.2 k)
          = (fairseq_key_map.get? 3).map (fun e => applyEntry e.1 e.2 k) :=
  ⟨rfl, rfl, fun _ => rfl⟩

/-- C2: a layer constructed without a cross-attention module errors when
`forward` receives a non-`None` `enc_out`; a layer constructed with one
errors when `enc_out` is `None`; in all other cases the cross-attention
dispatch does not raise and `forward` returns a value. -/
theorem C2_enc_out_mutual_exclusivity {T S R : Type}
    (ops : TensorOps T R) (L : StandardTransformerDecoderLayer T S)
    (x : T) (pm sam enc_out epm : Option T) (sb : S) (rng : R) :
    (L.enc_dec_attn = none → ∀ e, enc_out = some e →
      (L.forward ops x pm sam enc_out epm sb rng).1
        = Except.error "`enc_out` must be `None` for decoder-only attention.")
    ∧ (∀ a, L.enc_dec_attn = some a → enc_out = none →
      (L.forward ops x pm sam enc_out epm sb rng).1
        = Except.error "`enc_out` must not be `None` for encoder-decoder attention.")
    ∧ (L.enc_dec_attn.isSome = enc_out.isSome →
      ∃ y, (L.forward ops x pm sam enc_out epm sb rng).1 = Except.ok y) := by
  refine ⟨?_, ?_, ?_⟩
  · intro h e he
    subst he
    simp [StandardTransformerDecoderLayer.forward,
      StandardTransformerDecoderLayer.forward_enc_dec_attn, h]
  · intro a h he
    subst he
    simp [StandardTransformerDecoderLayer.forward,
      StandardTransformerDecoderLayer.forward_enc_dec_attn, h]
  · intro h
    cases hA : L.enc_dec_attn with
    | none =>
      cases enc_out with
      | none =>
        simp [StandardTransformerDecoderLayer.forward,
          StandardTransformerDecoderLayer.forward_enc_dec_attn, hA]
      | some e => simp [hA] at h
    | some a =>
      cases enc_out with
      | none => simp [hA] at h
      | some e =>
        simp [StandardTransformerDecoderLayer.forward,
          StandardTransformerDecoderLayer.forward_enc_dec_attn, hA]

/-- C2 witness: a concrete decoder-only layer rejects a supplied encoder
output, a concrete encoder-decoder layer rejects a missing encoder output,
and both matched configurations return a value. -/
theorem C2_enc_out_mutual_exclusivity_w :
    (postLayer.forward natOps 5 none none (some 7) none 0 0).1
      = Except.error "`enc_out` must be `None` for decoder-only attention."
    ∧ (encDecLayer.forward natOps 5 none none none none 0 0).1
      = Except.error "`enc_out` must not be `None` for encoder-decoder attention."
    ∧ (∃ y, (encDecLayer.forward natOps 5 none none (some 7) none 0 0).1 = Except.ok y)
    ∧ (∃ y, (postLayer.forward natOps 5 none none none none 0 0).1 = Except.ok y) :=
  ⟨(C2_enc_out_mutual_exclusivity natOps postLayer 5 none none (some 7) none 0 0).1 rfl 7 rfl,
   (C2_enc_out_mutual_exclusivity natOps encDecLayer 5 none none none none 0 0).2.1 natAttn rfl rfl,
   (C2_enc_out_mutual_exclusivity natOps encDecLayer 5 none none (some 7) none 0 0).2.2 rfl,
   (C2_enc_out_mutual_exclusivity natOps postLayer 5 none none none none 0 0).2.2 rfl⟩

/-- C5: construction errors exactly when the cross-attention module (when
present) or the feed-forward module declares a model dimension different from
the self-attention module's; when all declared dimensions agree, construction
returns a layer.  The check is part of the constructor itself, so it cannot
be deferred to a forward call. -/
theorem C5_construction_dim_check {T S : Type}
    (mkLN : Nat → Rat → (T → T)) (ones : Nat → T)
    (sa : MultiheadAttention T S) (eda : Option (MultiheadAttention T S))
    (ffn : FeedForwardNetwork T) (sr : Bool) (dp : Rat)
    (no : TransformerNormOrder) (eps : Rat) (tr : Bool) :
    ((∃ e, mkStandardTransformerDecoderLayer mkLN ones sa eda ffn sr dp no eps tr
        = Except.error e)
      ↔ ((∃ a, eda = some a ∧ a.model_dim ≠ sa.model_dim) ∨ ffn.model_dim ≠ sa.model_dim))
    ∧ (((∀ a, eda = some a → a.model_dim = sa.model_dim) ∧ ffn.model_dim = sa.model_dim)
      → ∃ L, mkStandardTransformerDecoderLayer mkLN ones sa eda ffn sr dp no eps tr
          = Except.ok L) := by
  cases eda with
  | none =>
    rw [mkStandardTransformerDecoderLayer]
    constructor
    · by_cases h : ffn.model_dim = sa.model_dim <;> simp [h]
    · intro h
      simp [h.2]
  | some a =>
    rw [mkStandardTransformerDecoderLayer]
    constructor
    · by_cases h1 : a.model_dim = sa.model_dim <;>
        by_cases h2 : ffn.model_dim = sa.model_dim <;> simp [h1, h2]
    · intro h
      simp [h.1 a rfl, h.2]

/-- C5 witness: matched dimensions construct a layer; a mismatched
feed-forward dimension and a mismatched cross-attention dimension each yield
a configuration error. -/
theorem C5_construction_dim_check_w :
    (∃ L, mkStandardTransformerDecoderLayer natLN natOnes natAttn none natFfn
        false 0 TransformerNormOrder.POST 0 true = Except.ok L)
    ∧ (∃ e, mkStandardTransformerDecoderLayer natLN natOnes natAttn none natFfn8
        false 0 TransformerNormOrder.POST 0 true = Except.error e)
    ∧ (∃ e, mkStandardTransformerDecoderLayer natLN natOnes natAttn
        (some { natAttn with model_dim := 6 }) natFfn
        false 0 TransformerNormOrder.POST 0 true = Except.error e) :=
  ⟨(C5_construction_dim_check natLN natOnes natAttn none natFfn
      false 0 TransformerNormOrder.POST 0 true).2 ⟨fun _ ha => (nomatch ha), rfl⟩,
   (C5_construction_dim_check natLN natOnes natAttn none natFfn8
      false 0 TransformerNormOrder.POST 0 true).1.mpr (Or.inr (by decide)),
   (C5_construction_dim_check natLN natOnes natAttn
      (some { natAttn with model_dim := 6 }) natFfn
      false 0 TransformerNormOrder.POST 0 true).1.mpr
      (Or.inl ⟨_, rfl, by decide⟩)⟩

/-- C1: for every layer and input, when the norm order is POST the
self-attention transform receives `x` unnormalized and the self-attention
layer norm wraps the residual sum; when it is PRE or PRE_WITH_NORMFORMER the
layer norm is applied to `x` before the transform and the residual sum is
returned unnormalized.  The same placement holds for the feed-forward and
(on encoder-decoder layers) the cross-attention sub-blocks. -/
theorem C1_norm_order_placement {T S R : Type}
    (ops : TensorOps T R) (L : StandardTransformerDecoderLayer T S)
    (x : T) (pm sam : Option T) (sb : S) (rng : R) :
    (L.forward_self_attn ops x pm sam sb rng =
      match L.norm_order with
      | TransformerNormOrder.POST =>
        let a := L.self_attn.attend x x x sam pm sb
        let d := L.dropoutStep ops (applyOpt L.self_attn_norm a.1) rng
        (L.self_attn_layer_norm (ops.add d.1 x), a.2, d.2)
      | _ =>
        let x1 := L.self_attn_layer_norm x
        let a := L.self_attn.attend x1 x1 x1 sam pm sb
        let d := L.dropoutStep ops (applyOpt L.self_attn_norm a.1) rng
        (ops.add d.1 x, a.2, d.2))
    ∧ (∀ rng2, L.forward_ffn ops x rng2 =
      match L.norm_order with
      | TransformerNormOrder.POST =>
        let d := L.dropoutStep ops (L.ffn.transform x) rng2
        (L.ffn_layer_norm (ops.add d.1
          (match L.residual_scale with | some s => ops.mul s x | none => x)), d.2)
      | _ =>
        let d := L.dropoutStep ops (L.ffn.transform (L.ffn_layer_norm x)) rng2
        (ops.add d.1
          (match L.residual_scale with | some s => ops.mul s x | none => x), d.2))
    ∧ (∀ a, L.enc_dec_attn = some a → ∀ (enc : T) (epm : Option T) (sb2 : S) (rng2 : R),
      L.forward_enc_dec_attn ops x (some enc) epm sb2 rng2 =
      match L.norm_order with
      | TransformerNormOrder.POST =>
        let r := a.attend x enc enc none epm sb2
        let d := L.dropoutStep ops r.1 rng2
        (Except.ok ((L.enc_dec_attn_layer_norm.getD id) (ops.add d.1 x)), r.2, d.2)
      | _ =>
        let r := a.attend ((L.enc_dec_attn_layer_norm.getD id) x) enc enc none epm sb2
        let d := L.dropoutStep ops r.1 rng2
        (Except.ok (ops.add d.1 x), r.2, d.2)) := by
  refine ⟨?_, ?_, ?_⟩
  · cases hno : L.norm_order <;>
      simp [StandardTransformerDecoderLayer.forward_self_attn, hno]
  · intro rng2
    cases hno : L.norm_order <;>
      simp [StandardTransformerDecoderLayer.forward_ffn, hno]
  · intro a hA enc epm sb2 rng2
    cases hno : L.norm_order <;>
      simp [StandardTransformerDecoderLayer.forward_enc_dec_attn, hA, hno]

/-- C1 witness: the closed forms evaluated on concrete POST, PRE and
encoder-decoder layers. -/
theorem C1_norm_order_placement_w :
    postLayer.forward_self_attn natOps 5 none none 0 0 = (21, 1, 0)
    ∧ preLayer.forward_self_attn natOps 5 none none 0 0 = (21, 1, 0)
    ∧ postLayer.forward_ffn natOps 5 0 = (25, 0)
    ∧ preLayer.forward_ffn natOps 5 0 = (35, 0)
    ∧ encDecLayer.forward_enc_dec_attn natOps 5 (some 7) none 0 0 = (Except.ok 21, 1, 0) :=
  ⟨(C1_norm_order_placement natOps postLayer 5 none none 0 0).1,
   (C1_norm_order_placement natOps preLayer 5 none none 0 0).1,
   (C1_norm_order_placement natOps postLayer 5 none none 0 0).2.1 0,
   (C1_norm_order_placement natOps preLayer 5 none none 0 0).2.1 0,
   (C1_norm_order_placement natOps encDecLayer 5 none none 0 0).2.2 natAttn rfl 7 none 0 0⟩

/-- C3: a layer constructed with `scale_residual = true` carries the learned
scale vector (initialized to all ones), the feed-forward sub-block multiplies
that vector into its residual before the residual add, and the self-attention
and cross-attention sub-blocks are independent of the `residual_scale` field,
so their residuals are added unscaled. -/
theorem C3_residual_scale_only_ffn {T S R : Type}
    (mkLN : Nat → Rat → (T → T)) (ones : Nat → T)
    (sa : MultiheadAttention T S) (eda : Option (MultiheadAttention T S))
    (ffn : FeedForwardNetwork T) (dp : Rat) (no : TransformerNormOrder)
    (eps : Rat) (tr : Bool) (L : StandardTransformerDecoderLayer T S)
    (hL : mkStandardTransformerDecoderLayer mkLN ones sa eda ffn true dp no eps tr
      = Except.ok L)
    (ops : TensorOps T R) :
    L.residual_scale = some (ones sa.model_dim)
    ∧ (∀ x rng, L.forward_ffn ops x rng =
        let x1 := if L.norm_order ≠ TransformerNormOrder.POST then L.ffn_layer_norm x else x
        let d := L.dropoutStep ops (L.ffn.transform x1) rng
        let y := ops.add d.1 (ops.mul (ones sa.model_dim) x)
        ((if L.norm_order = TransformerNormOrder.POST then L.ffn_layer_norm y else y), d.2))
    ∧ (∀ rs x pm sam sb rng,
        ({L with residual_scale := rs} :
            StandardTransformerDecoderLayer T S).forward_self_attn ops x pm sam sb rng
          = L.forward_self_attn ops x pm sam sb rng)
    ∧ (∀ rs x eo epm sb rng,
        ({L with residual_scale := rs} :
            StandardTransformerDecoderLayer T S).forward_enc_dec_attn ops x eo epm sb rng
          = L.forward_enc_dec_attn ops x eo epm sb rng) := by
  have hsc : L.residual_scale = some (ones sa.model_dim) := by
    have h := (mk_ok_fields hL).2.2.2.2.2.1
    simpa using h
  refine ⟨hsc, ?_, ?_, ?_⟩
  · intro x rng
    simp [StandardTransformerDecoderLayer.forward_ffn, hsc]
  · intro rs x pm sam sb rng
    rfl
  · intro rs x eo epm sb rng
    rfl

/-- C3 witness: on a concrete layer with an all-ones scale, the feed-forward
closed form holds and the attention sub-blocks ignore the scale field. -/
theorem C3_residual_scale_only_ffn_w :
    scaleLayer.residual_scale = some 1
    ∧ scaleLayer.forward_ffn natOps 5 0 = (25, 0)
    ∧ ({scaleLayer with residual_scale := some 7} :
        StandardTransformerDecoderLayer Nat Nat).forward_self_attn natOps 5 none none 0 0
      = scaleLayer.forward_self_attn natOps 5 none none 0 0
    ∧ ({scaleLayer with residual_scale := some 7} :
        StandardTransformerDecoderLayer Nat Nat).forward_enc_dec_attn natOps 5 none none 0 0
      = scaleLayer.forward_enc_dec_attn natOps 5 none none 0 0 :=
  ⟨(C3_residual_scale_only_ffn natLN natOnes natAttn none natFfn 0
      TransformerNormOrder.POST 0 true scaleLayer rfl natOps).1,
   (C3_residual_scale_only_ffn natLN natOnes natAttn none natFfn 0
      TransformerNormOrder.POST 0 true scaleLayer rfl natOps).2.1 5 0,
   (C3_residual_scale_only_ffn natLN natOnes natAttn none natFfn 0
      TransformerNormOrder.POST 0 true scaleLayer rfl natOps).2.2.1 (some 7) 5 none none 0 0,
   (C3_residual_scale_only_ffn natLN natOnes natAttn none natFfn 0
      TransformerNormOrder.POST 0 true scaleLayer rfl natOps).2.2.2 (some 7) 5 none none 0 0⟩

/-- C4: a constructed layer has the extra `self_attn_norm` module exactly
when its norm order is PRE_WITH_NORMFORMER; in that case the extra norm is
applied directly to the self-attention output, before the dropout step and
before the residual add (the residual added is the raw input `x`, so the norm
never touches the residual sum).  The cross-attention and feed-forward
sub-blocks are independent of the `self_attn_norm` field under every norm
order, so no extra normalization exists there. -/
theorem C4_normformer_extra_norm {T S R : Type}
    (mkLN : Nat → Rat → (T → T)) (ones : Nat → T)
    (sa : MultiheadAttention T S) (eda : Option (MultiheadAttention T S))
    (ffn : FeedForwardNetwork T) (sr : Bool) (dp : Rat)
    (no : TransformerNormOrder) (eps : Rat) (tr : Bool)
    (L : StandardTransformerDecoderLayer T S)
    (hL : mkStandardTransformerDecoderLayer mkLN ones sa eda ffn sr dp no eps tr
      = Except.ok L)
    (ops : TensorOps T R) :
    (L.self_attn_norm.isSome = true ↔ no = TransformerNormOrder.PRE_WITH_NORMFORMER)
    ∧ (no = TransformerNormOrder.PRE_WITH_NORMFORMER →
        ∀ x pm sam sb rng, L.forward_self_attn ops x pm sam sb rng =
          let x1 := L.self_attn_layer_norm x
          let a := L.self_attn.attend x1 x1 x1 sam pm sb
          let d := L.dropoutStep ops (mkLN sa.model_dim eps a.1) rng
          (ops.add d.1 x, a.2, d.2))
    ∧ (∀ m x rng,
        ({L with self_attn_norm := m} :
            StandardTransformerDecoderLayer T S).forward_ffn ops x rng
          = L.forward_ffn ops x rng)
    ∧ (∀ m x eo epm sb rng,
        ({L with self_attn_norm := m} :
            StandardTransformerDecoderLayer T S).forward_enc_dec_attn ops x eo epm sb rng
          = L.forward_enc_dec_attn ops x eo epm sb rng) := by
  obtain ⟨-, hnorm, hlnorm, -, -, -, -, -, hno, -⟩ := mk_ok_fields hL
  refine ⟨?_, ?_, ?_, ?_⟩
  · rw [hnorm]
    by_cases h : no = TransformerNormOrder.PRE_WITH_NORMFORMER <;> simp [h]
  · intro h x pm sam sb rng
    have hpost : L.norm_order ≠ TransformerNormOrder.POST := by
      rw [hno, h]
      exact fun hc => nomatch hc
    simp [StandardTransformerDecoderLayer.forward_self_attn, hpost, hnorm, h, applyOpt]
  · intro m x rng
    rfl
  · intro m x eo epm sb rng
    rfl

/-- C4 witness: a concrete PRE_WITH_NORMFORMER layer has the extra norm and
satisfies the closed form; its other sub-blocks ignore the field. -/
theorem C4_normformer_extra_norm_w :
    normformerLayer.self_attn_norm.isSome = true
    ∧ normformerLayer.forward_self_attn natOps 5 none none 0 0 = (31, 1, 0)
    ∧ ({normformerLayer with self_attn_norm := none} :
        StandardTransformerDecoderLayer Nat Nat).forward_ffn natOps 5 0
      = normformerLayer.forward_ffn natOps 5 0
    ∧ ({normformerLayer with self_attn_norm := none} :
        StandardTransformerDecoderLayer Nat Nat).forward_enc_dec_attn natOps 5 none none 0 0
      = normformerLayer.forward_enc_dec_attn natOps 5 none none 0 0 :=
  ⟨(C4_normformer_extra_norm natLN natOnes natAttn none natFfn false 0
      TransformerNormOrder.PRE_WITH_NORMFORMER 0 true normformerLayer rfl natOps).1.mpr rfl,
   (C4_normformer_extra_norm natLN natOnes natAttn none natFfn false 0
      TransformerNormOrder.PRE_WITH_NORMFORMER 0 true normformerLayer rfl natOps).2.1 rfl
      5 none none 0 0,
   (C4_normformer_extra_norm natLN natOnes natAttn none natFfn false 0
      TransformerNormOrder.PRE_WITH_NORMFORMER 0 true normformerLayer rfl natOps).2.2.1
      none 5 0,
   (C4_normformer_extra_norm natLN natOnes natAttn none natFfn false 0
      TransformerNormOrder.PRE_WITH_NORMFORMER 0 true normformerLayer rfl natOps).2.2.2
      none 5 none none 0 0⟩

/-- C6: whenever `forward` returns a value, its shape equals the shape of the
input, for every norm order and both decoder-only and encoder-decoder
configurations, assuming each collaborator module is shape-preserving as its
interface requires (attention preserves the query shape, feed-forward and
normalization preserve their input shape, dropout preserves shape, residual
add of equal-shaped tensors and broadcast multiplication preserve the
residual's shape). -/
theorem C6_shape_preservation {T S R σ : Type} (sh : T → σ)
    (ops : TensorOps T R) (L : StandardTransformerDecoderLayer T S)
    (hadd : ∀ a b, sh a = sh b → sh (ops.add a b) = sh a)
    (hmul : ∀ s a, sh (ops.mul s a) = sh a)
    (hdrop : ∀ z p t r, sh ((ops.dropout z p t r).1) = sh z)
    (hattn : ∀ q k v am pm b, sh ((L.self_attn.attend q k v am pm b).1) = sh q)
    (hcross : ∀ a, L.enc_dec_attn = some a →
      ∀ q k v am pm b, sh ((a.attend q k v am pm b).1) = sh q)
    (hffn : ∀ z, sh (L.ffn.transform z) = sh z)
    (hn1 : ∀ z, sh (L.self_attn_layer_norm z) = sh z)
    (hn2 : ∀ n, L.self_attn_norm = some n → ∀ z, sh (n z) = sh z)
    (hn3 : ∀ n, L.enc_dec_attn_layer_norm = some n → ∀ z, sh (n z) = sh z)
    (hn4 : ∀ z, sh (L.ffn_layer_norm z) = sh z)
    (x : T) (pm sam eo epm : Option T) (sb : S) (rng : R) (y : T)
    (hy : (L.forward ops x pm sam eo epm sb rng).1 = Except.ok y) :
    sh y = sh x := by
  have hds : ∀ z r0, sh ((L.dropoutStep ops z r0).1) = sh z := by
    intro z r0
    rw [StandardTransformerDecoderLayer.dropoutStep]
    split
    · exact hdrop z L.dropout_p L.training r0
    · rfl
  have hao : ∀ z, sh (applyOpt L.self_attn_norm z) = sh z := by
    intro z
    cases hm : L.self_attn_norm with
    | none => rfl
    | some n => exact hn2 n hm z
  have hgd : ∀ z, sh ((L.enc_dec_attn_layer_norm.getD id) z) = sh z := by
    intro z
    cases hm : L.enc_dec_attn_layer_norm with
    | none => rfl
    | some n => exact hn3 n hm z
  have hsa : ∀ z b r0, sh ((L.forward_self_attn ops z pm sam b r0).1) = sh z := by
    intro z b r0
    by_cases hno : L.norm_order = TransformerNormOrder.POST
    · simp only [StandardTransformerDecoderLayer.forward_self_attn, hno, ne_eq,
        not_true_eq_false, if_false, if_true, ite_true, ite_false, reduceIte]
      have hd : sh ((L.dropoutStep ops
          (applyOpt L.self_attn_norm (L.self_attn.attend z z z sam pm b).1) r0).1) = sh z := by
        rw [hds, hao, hattn]
      rw [hn1, hadd _ _ hd, hd]
    · simp only [StandardTransformerDecoderLayer.forward_self_attn, hno, ne_eq,
        not_false_eq_true, if_false, if_true, ite_true, ite_false, reduceIte]
      have hd : sh ((L.dropoutStep ops
          (applyOpt L.self_attn_norm
            (L.self_attn.attend (L.self_attn_layer_norm z) (L.self_attn_layer_norm z)
              (L.self_attn_layer_norm z) sam pm b).1) r0).1) = sh z := by
        rw [hds, hao, hattn, hn1]
      rw [hadd _ _ hd, hd]
  have hff : ∀ z r0, sh ((L.forward_ffn ops z r0).1) = sh z := by
    intro z r0
    have hres : sh (match L.residual_scale with
        | some s => ops.mul s z
        | none => z) = sh z := by
      cases hm : L.residual_scale with
      | none => rfl
      | some s => exact hmul s z
    by_cases hno : L.norm_order = TransformerNormOrder.POST
    · simp only [StandardTransformerDecoderLayer.forward_ffn, hno, ne_eq,
        not_true_eq_false, if_false, if_true, ite_true, ite_false, reduceIte]
      have hd : sh ((L.dropoutStep ops (L.ffn.transform z) r0).1) = sh z := by
        rw [hds, hffn]
      rw [hn4, hadd _ _ (hd.trans hres.symm), hd]
    · simp only [StandardTransformerDecoderLayer.forward_ffn, hno, ne_eq,
        not_false_eq_true, if_false, if_true, ite_true, ite_false, reduceIte]
      have hd : sh ((L.dropoutStep ops (L.ffn.transform (L.ffn_layer_norm z)) r0).1) = sh z := by
        rw [hds, hffn, hn4]
      rw [hadd _ _ (hd.trans hres.symm), hd]
  cases hA : L.enc_dec_attn with
  | none =>
    cases heo : eo with
    | none =>
      simp only [StandardTransformerDecoderLayer.forward,
        StandardTransformerDecoderLayer.forward_enc_dec_attn, hA, heo,
        Except.ok.injEq] at hy
      rw [← hy, hff, hsa]
    | some e =>
      simp [StandardTransformerDecoderLayer.forward,
        StandardTransformerDecoderLayer.forward_enc_dec_attn, hA, heo] at hy
  | some a =>
    cases heo : eo with
    | none =>
      simp [StandardTransformerDecoderLayer.forward,
        StandardTransformerDecoderLayer.forward_enc_dec_attn, hA, heo] at hy
    | some enc =>
      by_cases hno : L.norm_order = TransformerNormOrder.POST
      all_goals
        simp only [StandardTransformerDecoderLayer.forward,
          StandardTransformerDecoderLayer.forward_enc_dec_attn, hA, heo, hno, ne_eq,
          not_true_eq_false, not_false_eq_true, if_false, if_true, ite_true, ite_false,
          reduceIte, Except.ok.injEq] at hy
      · -- POST: the cross-attention layer norm wraps the residual sum
        have hd : sh ((L.dropoutStep ops
            (a.attend (L.forward_self_attn ops x pm sam sb rng).1 enc enc none epm
              (L.forward_self_attn ops x pm sam sb rng).2.1).1
            (L.forward_self_attn ops x pm sam sb rng).2.2).1)
            = sh (L.forward_self_attn ops x pm sam sb rng).1 := by
          rw [hds, hcross a hA]
        rw [← hy, hff, hgd, hadd _ _ hd, hd, hsa]
      · -- PRE and PRE_WITH_NORMFORMER: the norm is applied before the transform
        have hd : sh ((L.dropoutStep ops
            (a.attend ((L.enc_dec_attn_layer_norm.getD id)
                (L.forward_self_attn ops x pm sam sb rng).1) enc enc none epm
              (L.forward_self_attn ops x pm sam sb rng).2.1).1
            (L.forward_self_attn ops x pm sam sb rng).2.2).1)
            = sh (L.forward_self_attn ops x pm sam sb rng).1 := by
          rw [hds, hcross a hA, hgd]
        rw [← hy, hff, hadd _ _ hd, hd, hsa]

/-- C6 witness: concrete length-preserving collaborators over `List Int`
tensors; the forward output has the length of the input. -/
theorem C6_shape_preservation_w :
    (listLayer.forward listOps [1, 2, 3] none none none none 0 0).1
      = Except.ok ([4, 6, 8] : List Int)
    ∧ ([4, 6, 8] : List Int).length = ([1, 2, 3] : List Int).length :=
  ⟨rfl,
   C6_shape_preservation List.length listOps listLayer
     (fun _ _ _ => rfl) (fun _ _ => rfl) (fun _ _ _ _ => rfl)
     (fun q _ _ _ _ _ => by simp [listLayer, listAttn])
     (fun a ha => nomatch ha)
     (fun z => by simp [listLayer, listFfn])
     (fun _ => rfl)
     (fun n hn => nomatch hn)
     (fun n hn => nomatch hn)
     (fun _ => rfl)
     [1, 2, 3] none none none none 0 0 [4, 6, 8] rfl⟩

/-- C7: with dropout probability 0, `forward` never invokes the dropout
collaborator: the returned tensor and state bag are independent of the RNG,
and the RNG is returned untouched, so two calls with identical inputs and
state-bag contents produce identical outputs. -/
theorem C7_deterministic_without_dropout {T S R : Type}
    (ops : TensorOps T R) (L : StandardTransformerDecoderLayer T S)
    (x : T) (pm sam eo epm : Option T) (sb : S)
    (h : L.dropout_p = 0) (rng rng' : R) :
    (L.forward ops x pm sam eo epm sb rng).1 = (L.forward ops x pm sam eo epm sb rng').1
    ∧ (L.forward ops x pm sam eo epm sb rng).2.1
      = (L.forward ops x pm sam eo epm sb rng').2.1
    ∧ (L.forward ops x pm sam eo epm sb rng).2.2 = rng
    ∧ (L.forward ops x pm sam eo epm sb rng').2.2 = rng' := by
  have hz : ∀ z r0, L.dropoutStep ops z r0 = (z, r0) := fun z r0 => dropoutStep_of_zero ops h z r0
  cases hA : L.enc_dec_attn <;> cases heo : eo <;>
    simp [StandardTransformerDecoderLayer.forward,
      StandardTransformerDecoderLayer.forward_self_attn,
      StandardTransformerDecoderLayer.forward_enc_dec_attn,
      StandardTransformerDecoderLayer.forward_ffn, hA, heo, hz]

/-- C7 witness: on a concrete dropout-0 layer, two different RNG values give
identical outputs and the RNGs pass through untouched. -/
theorem C7_deterministic_without_dropout_w :
    (postLayer.forward natOps 5 none none none none 0 3).1
      = (postLayer.forward natOps 5 none none none none 0 8).1
    ∧ (postLayer.forward natOps 5 none none none none 0 3).2.1
      = (postLayer.forward natOps 5 none none none none 0 8).2.1
    ∧ (postLayer.forward natOps 5 none none none none 0 3).2.2 = 3
    ∧ (postLayer.forward natOps 5 none none none none 0 8).2.2 = 8 :=
  C7_deterministic_without_dropout natOps postLayer 5 none none none none 0 rfl 3 8

/-- C10: when `forward` raises the `enc_out` invalid-argument error (the
cross-attention presence does not match the presence of `enc_out`), the
self-attention sub-block has already fully executed: the state bag returned
alongside the error is exactly the bag produced by the self-attention call,
not the bag passed in, so a failing call is not atomic with respect to the
state bag. -/
theorem C10_self_attn_runs_before_enc_out_error {T S R : Type}
    (ops : TensorOps T R) (L : StandardTransformerDecoderLayer T S)
    (x : T) (pm sam eo epm : Option T) (sb : S) (rng : R)
    (h : L.enc_dec_attn.isSome ≠ eo.isSome) :
    (∃ e, (L.forward ops x pm sam eo epm sb rng).1 = Except.error e)
    ∧ (L.forward ops x pm sam eo epm sb rng).2.1
      = (L.forward_self_attn ops x pm sam sb rng).2.1 := by
  cases hA : L.enc_dec_attn with
  | none =>
    cases heo : eo with
    | none => simp [hA, heo] at h
    | some e =>
      constructor
      · exact ⟨"`enc_out` must be `None` for decoder-only attention.",
          by simp [StandardTransformerDecoderLayer.forward,
            StandardTransformerDecoderLayer.forward_enc_dec_attn, hA, heo]⟩
      · simp [StandardTransformerDecoderLayer.forward,
          StandardTransformerDecoderLayer.forward_enc_dec_attn, hA, heo]
  | some a =>
    cases heo : eo with
    | some e => simp [hA, heo] at h
    | none =>
      constructor
      · exact ⟨"`enc_out` must not be `None` for encoder-decoder attention.",
          by simp [StandardTransformerDecoderLayer.forward,
            StandardTransformerDecoderLayer.forward_enc_dec_attn, hA, heo]⟩
      · simp [StandardTransformerDecoderLayer.forward,
          StandardTransformerDecoderLayer.forward_enc_dec_attn, hA, heo]

/-- C10 witness: on a concrete decoder-only layer called with an encoder
output, the call errors and the returned state bag is the bag as mutated by
the self-attention collaborator (1), not the bag passed in (0). -/
theorem C10_self_attn_runs_before_enc_out_error_w :
    (∃ e, (postLayer.forward natOps 5 none none (some 7) none 0 0).1 = Except.error e)
    ∧ (postLayer.forward natOps 5 none none (some 7) none 0 0).2.1 = 1
    ∧ (1 : Nat) ≠ 0 :=
  ⟨(C10_self_attn_runs_before_enc_out_error natOps postLayer 5 none none (some 7) none 0 0
      (by decide)).1,
   (C10_self_attn_runs_before_enc_out_error natOps postLayer 5 none none (some 7) none 0 0
      (by decide)).2,
   by decide⟩

end Fairseq2
